import Mathlib

/-!
# tesla_wallbox_exporter

A shallow embedding of `tesla_wallbox_exporter.go`: the environment lookups done at
startup, the `/query` handler with its carried power-meter values, and the two
Prometheus formatters, followed by the properties proved about them.
-/

namespace TeslaWallboxExporter

/-! ## Values of the Go types used by the exporter -/

/-- A Go `float64`, held as its IEEE-754 binary64 bit pattern. -/
structure Float64 where
  bits : Nat
  isLt : bits < 2 ^ 64
deriving DecidableEq

/-- The constant `0.0` (all bits clear). -/
def Float64.zero : Float64 := ⟨0, by decide⟩

/-- Go's comparison `x == 0` on a `float64`: true for `+0` and `-0` only
(every bit except the sign bit is clear); false for NaN and every other value. -/
def Float64.eqZero (x : Float64) : Bool := x.bits % 2 ^ 63 == 0

/-- Fields of `teslaWallbox.Vitals` read by the exporter, in the order they are passed
to `fmt.Sprintf`. `SessionEnergy` is a `float64` (it is assigned from
`lastSessionEnergyValue := 0.0`); the other types are the ones the format verbs require
(`%d` integer, `%.Nf` float64, `boolToInt` argument bool). -/
structure Vitals where
  ContactorClosed : Bool
  VehicleConnected : Bool
  SessionDuration : Int
  SessionEnergy : Float64
  GridVoltage : Float64
  GridFrequency : Float64
  VehicleCurrent : Float64
  PhaseACurrent : Float64
  PhaseBCurrent : Float64
  PhaseCCurrent : Float64
  NeutralCurrent : Float64
  PhaseAVoltage : Float64
  PhaseBVoltage : Float64
  PhaseCVoltage : Float64
  RelayCoilVoltage : Float64
  PcbTemperature : Float64
  HandleTemperature : Float64
  McuTemperature : Float64
  Uptime : Int
  ProximityVoltage : Float64
  PilotHighVoltage : Float64
  PilotLowVoltage : Float64
  ConfigStatus : Int
  EvseState : Int
deriving DecidableEq

/-- Fields of `teslaWallbox.LifetimeStats` read by the exporter. `DispensedEnergy` is a
`uint` (it is assigned from `var lastDispensedEnergyValue uint`); the other types are the
ones the format verbs require. -/
structure LifetimeStats where
  ContactorCycles : Int
  ContactorCyclesLoaded : Int
  ConnectorCycles : Int
  ThermalFoldbacks : Int
  AverageStartupTemperature : Float64
  StartedChargingSessions : Int
  DispensedEnergy : Nat
  TotalUptime : Int
  ChargingTime : Int
deriving DecidableEq

/-- The zero-valued `Vitals` structure. -/
def Vitals.zero : Vitals :=
  { ContactorClosed := false, VehicleConnected := false, SessionDuration := 0,
    SessionEnergy := Float64.zero, GridVoltage := Float64.zero,
    GridFrequency := Float64.zero, VehicleCurrent := Float64.zero,
    PhaseACurrent := Float64.zero, PhaseBCurrent := Float64.zero,
    PhaseCCurrent := Float64.zero, NeutralCurrent := Float64.zero,
    PhaseAVoltage := Float64.zero, PhaseBVoltage := Float64.zero,
    PhaseCVoltage := Float64.zero, RelayCoilVoltage := Float64.zero,
    PcbTemperature := Float64.zero, HandleTemperature := Float64.zero,
    McuTemperature := Float64.zero, Uptime := 0, ProximityVoltage := Float64.zero,
    PilotHighVoltage := Float64.zero, PilotLowVoltage := Float64.zero,
    ConfigStatus := 0, EvseState := 0 }

/-- The zero-valued `LifetimeStats` structure. -/
def LifetimeStats.zero : LifetimeStats :=
  { ContactorCycles := 0, ContactorCyclesLoaded := 0, ConnectorCycles := 0,
    ThermalFoldbacks := 0, AverageStartupTemperature := Float64.zero,
    StartedChargingSessions := 0, DispensedEnergy := 0, TotalUptime := 0,
    ChargingTime := 0 }

/-! ## `fmt.Sprintf` for the verbs the exporter uses -/

/-- The decimal digits of `n`, left-padded with `0` to at least `width` characters. -/
def padDigits (width n : Nat) : List Char :=
  let ds := (Nat.repr n).data
  List.replicate (width - ds.length) '0' ++ ds

/-- The text `%.<prec>f` produces for a `float64`: `NaN`, `+Inf`, `-Inf`, or the exact
binary value rounded to `prec` decimals (nearest, ties to even), sign kept. -/
def formatFloat (prec : Nat) (x : Float64) : List Char :=
  let sign := x.bits / 2 ^ 63
  let e := (x.bits / 2 ^ 52) % 2048
  let m := x.bits % 2 ^ 52
  if e = 2047 then
    if m = 0 then (if sign = 1 then "-Inf".data else "+Inf".data) else "NaN".data
  else
    let mant := if e = 0 then m else m + 2 ^ 52
    let e2 := if e = 0 then 1 else e
    let num := mant * 10 ^ prec * 2 ^ (e2 - 1075)
    let den := 2 ^ (1075 - e2)
    let q := num / den
    let r := num % den
    let n := if den < 2 * r ∨ (2 * r = den ∧ q % 2 = 1) then q + 1 else q
    (if sign = 1 then ['-'] else []) ++ (Nat.repr (n / 10 ^ prec)).data ++
      (if prec = 0 then [] else '.' :: padDigits prec (n % 10 ^ prec))

/-- The text `%d` produces for an integer. -/
def formatInt (i : Int) : List Char := (toString i).data

/-- An operand of `fmt.Sprintf`. -/
inductive Arg where
  | int (i : Int)
  | float (x : Float64)

/-- Go's `fmt.Sprintf` restricted to the verbs `%d` (integer operand) and `%.Nf`
(one-digit precision, float64 operand). Any other verb, a verb whose operand is missing
or of the other kind, and operands left over give `none`. -/
def sprintfChars : List Char → List Arg → Option (List Char)
  | [], [] => some []
  | [], _ :: _ => none
  | c :: cs, args =>
    if c = '%' then
      match cs, args with
      | v :: rest, Arg.int i :: args' =>
        if v = 'd' then (formatInt i ++ ·) <$> sprintfChars rest args' else none
      | d :: p :: f :: rest, Arg.float x :: args' =>
        if d = '.' ∧ p.isDigit = true ∧ f = 'f' then
          (formatFloat (p.toNat - '0'.toNat) x ++ ·) <$> sprintfChars rest args'
        else none
      | _, _ => none
    else (c :: ·) <$> sprintfChars cs args

/-- Go's `fmt.Sprintf` on strings; the empty string stands for `none`. -/
def sprintf (format : String) (args : List Arg) : String :=
  match sprintfChars format.data args with
  | some cs => String.mk cs
  | none => ""

/-! ## The exposition formatter -/

/-- Go: `boolToInt`. -/
def boolToInt (v : Bool) : Int :=
  if v then 1 else 0

/-- The format string of `prometheusFormatWallboxLifetimeStats`: the raw string literal of
the source, one metric per row, cut at the line ends and around each verb. -/
def lifetimeStatsFormatString : String :=
  "\n" ++
  "# TYPE contactor_cycles counter\n" ++ "contactor_cycles " ++ "%d" ++ "\n" ++ "\n" ++
  "# TYPE contactor_cycles_loaded counter\n" ++ "contactor_cycles_loaded " ++ "%d" ++ "\n" ++ "\n" ++
  "# TYPE connector_cycles counter\n" ++ "connector_cycles " ++ "%d" ++ "\n" ++ "\n" ++
  "# TYPE thermal_foldbacks counter\n" ++ "thermal_foldbacks " ++ "%d" ++ "\n" ++ "\n" ++
  "# TYPE average_startup_temperature gauge\n" ++ "average_startup_temperature " ++ "%.1f" ++ "\n" ++ "\n" ++
  "# TYPE started_charging_sessions counter\n" ++ "started_charging_sessions " ++ "%d" ++ "\n" ++ "\n" ++
  "# TYPE dispensed_energy counter\n" ++ "dispensed_energy " ++ "%d" ++ "\n" ++ "\n" ++
  "# TYPE total_uptime counter\n" ++ "total_uptime " ++ "%d" ++ "\n" ++ "\n" ++
  "# TYPE total_charging_time counter\n" ++ "total_charging_time " ++ "%d" ++ "\n"

/-- Go: `prometheusFormatWallboxLifetimeStats`. -/
def prometheusFormatWallboxLifetimeStats (stats : LifetimeStats) : String :=
  sprintf lifetimeStatsFormatString
    [Arg.int stats.ContactorCycles,
     Arg.int stats.ContactorCyclesLoaded,
     Arg.int stats.ConnectorCycles,
     Arg.int stats.ThermalFoldbacks,
     Arg.float stats.AverageStartupTemperature,
     Arg.int stats.StartedChargingSessions,
     Arg.int (Int.ofNat stats.DispensedEnergy),
     Arg.int stats.TotalUptime,
     Arg.int stats.ChargingTime]

/-- The format string of `prometheusFormatWallboxVitals`: the raw string literal of the
source (it ends in a line of four blanks), one metric per row, cut at the line ends and
around each verb. -/
def vitalsFormatString : String :=
  "\n" ++
  "# TYPE contactor_closed gauge\n" ++ "contactor_closed " ++ "%d" ++ "\n" ++ "\n" ++
  "# TYPE vehicle_connected gauge\n" ++ "vehicle_connected " ++ "%d" ++ "\n" ++ "\n" ++
  "# TYPE session_duration gauge\n" ++ "session_duration " ++ "%d" ++ "\n" ++ "\n" ++
  "# TYPE session_energy gauge\n" ++ "session_energy " ++ "%.3f" ++ "\n" ++ "\n" ++
  "# TYPE grid_voltage gauge\n" ++ "grid_voltage " ++ "%.3f" ++ "\n" ++ "\n" ++
  "# TYPE grid_frequency gauge\n" ++ "grid_frequency " ++ "%.3f" ++ "\n" ++ "\n" ++
  "# TYPE vehicle_current gauge\n" ++ "vehicle_current " ++ "%.3f" ++ "\n" ++ "\n" ++
  "# TYPE phase_a_current gauge\n" ++ "phase_a_current " ++ "%.3f" ++ "\n" ++ "\n" ++
  "# TYPE phase_b_current gauge\n" ++ "phase_b_current " ++ "%.3f" ++ "\n" ++ "\n" ++
  "# TYPE phase_c_current gauge\n" ++ "phase_c_current " ++ "%.3f" ++ "\n" ++ "\n" ++
  "# TYPE neutral_current gauge\n" ++ "neutral_current " ++ "%.3f" ++ "\n" ++ "\n" ++
  "# TYPE phase_a_voltage gauge\n" ++ "phase_a_voltage " ++ "%.3f" ++ "\n" ++ "\n" ++
  "# TYPE phase_b_voltage gauge\n" ++ "phase_b_voltage " ++ "%.3f" ++ "\n" ++ "\n" ++
  "# TYPE phase_c_voltage gauge\n" ++ "phase_c_voltage " ++ "%.3f" ++ "\n" ++ "\n" ++
  "# TYPE relay_coil_voltage gauge\n" ++ "relay_coil_voltage " ++ "%.3f" ++ "\n" ++ "\n" ++
  "# TYPE pcb_temperature gauge\n" ++ "pcb_temperature " ++ "%.1f" ++ "\n" ++ "\n" ++
  "# TYPE handle_temperature gauge\n" ++ "handle_temperature " ++ "%.1f" ++ "\n" ++ "\n" ++
  "# TYPE mcu_temperature gauge\n" ++ "mcu_temperature " ++ "%.3f" ++ "\n" ++ "\n" ++
  "# TYPE uptime gauge\n" ++ "uptime " ++ "%d" ++ "\n" ++ "\n" ++
  "# TYPE proximity_voltage gauge\n" ++ "proximity_voltage " ++ "%.1f" ++ "\n" ++ "\n" ++
  "# TYPE pilot_high_voltage gauge\n" ++ "pilot_high_voltage " ++ "%.1f" ++ "\n" ++ "\n" ++
  "# TYPE pilot_low_voltage gauge\n" ++ "pilot_low_voltage " ++ "%.1f" ++ "\n" ++ "\n" ++
  "# TYPE config_status gauge\n" ++ "config_status " ++ "%d" ++ "\n" ++ "\n" ++
  "# TYPE evse_state gauge\n" ++ "evse_state " ++ "%d" ++ "\n" ++ "    "

/-- Go: `prometheusFormatWallboxVitals`. -/
def prometheusFormatWallboxVitals (vitals : Vitals) : String :=
  sprintf vitalsFormatString
    [Arg.int (boolToInt vitals.ContactorClosed),
     Arg.int (boolToInt vitals.VehicleConnected),
     Arg.int vitals.SessionDuration,
     Arg.float vitals.SessionEnergy,
     Arg.float vitals.GridVoltage,
     Arg.float vitals.GridFrequency,
     Arg.float vitals.VehicleCurrent,
     Arg.float vitals.PhaseACurrent,
     Arg.float vitals.PhaseBCurrent,
     Arg.float vitals.PhaseCCurrent,
     Arg.float vitals.NeutralCurrent,
     Arg.float vitals.PhaseAVoltage,
     Arg.float vitals.PhaseBVoltage,
     Arg.float vitals.PhaseCVoltage,
     Arg.float vitals.RelayCoilVoltage,
     Arg.float vitals.PcbTemperature,
     Arg.float vitals.HandleTemperature,
     Arg.float vitals.McuTemperature,
     Arg.int vitals.Uptime,
     Arg.float vitals.ProximityVoltage,
     Arg.float vitals.PilotHighVoltage,
     Arg.float vitals.PilotLowVoltage,
     Arg.int vitals.ConfigStatus,
     Arg.int vitals.EvseState]

/-! ## The `/query` handler -/

/-- The variables `lastSessionEnergyValue` and `lastDispensedEnergyValue` of `main`,
captured by the handler closure. -/
structure CarriedState where
  lastSessionEnergyValue : Float64
  lastDispensedEnergyValue : Nat
deriving DecidableEq

/-- What `teslaWallbox.FetchVitals` / `FetchLifetimeStats` hand back: the structure and
the error (`none` for `nil`, otherwise its text). -/
structure Fetched (α : Type) where
  value : α
  error : Option String

/-- A log call made by the handler. -/
inductive HandlerLog where
  | error (msg : String)
  | debugVitals (vitals : Vitals)
  | debugStats (stats : LifetimeStats)
deriving DecidableEq

/-- What one run of the handler leaves behind: the status written with `WriteHeader`,
the two `Fprintln` writes in order, the structures handed to the formatters, the log
calls, and the carried variables after the request. -/
structure QueryResult where
  status : Nat
  writes : List String
  vitals : Vitals
  stats : LifetimeStats
  log : List HandlerLog
  carried : CarriedState

/-- The response body: everything written, in order. -/
def QueryResult.body (r : QueryResult) : String :=
  r.writes.foldl (· ++ ·) ""

/-- Go: `http.StatusOK`. -/
def StatusOK : Nat := 200

/-- Go: `fmt.Fprintln` with one string operand. -/
def fprintln (s : String) : String := s ++ "\n"

/-- Go: the function registered for `/query`, run on the outcomes of the two fetches
with the captured flag and carried variables. -/
def queryHandler (keepPowerMetersWhenUnreachable : Bool) (carried : CarriedState)
    (vitalsFetch : Fetched Vitals) (statsFetch : Fetched LifetimeStats) : QueryResult :=
  let vitals := vitalsFetch.value
  let stats := statsFetch.value
  let vitalsLog :=
    match vitalsFetch.error with
    | some vitalsError => [HandlerLog.error ("Vitals error:" ++ vitalsError)]
    | none => []
  let statsLog :=
    match statsFetch.error with
    | some statsError => [HandlerLog.error ("Stats error:" ++ statsError)]
    | none => []
  let guarded : Vitals × LifetimeStats × CarriedState :=
    if keepPowerMetersWhenUnreachable then
      let vitals :=
        if vitals.SessionEnergy.eqZero then
          { vitals with SessionEnergy := carried.lastSessionEnergyValue }
        else vitals
      let stats :=
        if stats.DispensedEnergy = 0 then
          { stats with DispensedEnergy := carried.lastDispensedEnergyValue }
        else stats
      (vitals, stats,
        { lastSessionEnergyValue := vitals.SessionEnergy,
          lastDispensedEnergyValue := stats.DispensedEnergy })
    else (vitals, stats, carried)
  { status := StatusOK,
    writes := [fprintln (prometheusFormatWallboxVitals guarded.1),
               fprintln (prometheusFormatWallboxLifetimeStats guarded.2.1)],
    vitals := guarded.1,
    stats := guarded.2.1,
    log := vitalsLog ++ statsLog ++
      [HandlerLog.debugVitals guarded.1, HandlerLog.debugStats guarded.2.1],
    carried := guarded.2.2 }

/-- The handler run on a sequence of requests one after another, each starting from the
carried variables the previous one left; the results are listed in request order. -/
def serveAll (keepPowerMetersWhenUnreachable : Bool) :
    CarriedState → List (Fetched Vitals × Fetched LifetimeStats) → List QueryResult
  | _, [] => []
  | carried, (vitalsFetch, statsFetch) :: rest =>
    let r := queryHandler keepPowerMetersWhenUnreachable carried vitalsFetch statsFetch
    r :: serveAll keepPowerMetersWhenUnreachable r.carried rest

/-! ## Startup -/

/-- Go: `ENV_TESLA_WALLBOX_IP`. -/
def ENV_TESLA_WALLBOX_IP : String := "TESLA_WALLBOX_IP"

/-- Go: `ENV_DEBUG`. -/
def ENV_DEBUG : String := "DEBUG"

/-- Go: `ENV_KEEP_POWER_METER`. -/
def ENV_KEEP_POWER_METER : String := "KEEP_POWER_METER"

/-- The process environment: `(name, value)` pairs. -/
abbrev Env := List (String × String)

/-- Go: `os.LookupEnv`. -/
def LookupEnv (env : Env) (key : String) : Option String :=
  env.lookup key

/-- Go: `getEnvVariableOrDie`; `Except.error` carries the text given to `log.Fatalf`,
after which the process exits. -/
def getEnvVariableOrDie (env : Env) (lookup : String) : Except String String :=
  match LookupEnv env lookup with
  | none => Except.error ("Env variable " ++ lookup ++ " not found")
  | some value => Except.ok value

/-- What `main` does that is visible from outside, in order. -/
inductive Event where
  | logInfo (msg : String)
  | logDebug (msg : String)
  | logFatal (msg : String)
  | setLevelDebug
  | handleFunc (pattern : String)
  | listenAndServe (addr : String)
deriving DecidableEq

/-- The values the handler closure captures once `main` has registered it. -/
structure Server where
  ipAddress : String
  debugLevel : Bool
  keepPowerMetersWhenUnreachable : Bool
  carried : CarriedState
deriving DecidableEq

/-- How `main` ends: the process exits with a code, or it stays inside
`http.ListenAndServe` serving requests. -/
inductive Outcome where
  | exit (code : Nat)
  | serving (server : Server)
deriving DecidableEq

/-- A run of `main`. -/
structure Run where
  events : List Event
  outcome : Outcome
deriving DecidableEq

/-- Go: `main`, for a process environment and for what `http.ListenAndServe` returns
(`none`: it keeps serving; `some e`: it fails with error text `e`). A `log.Fatal` logs
and exits with code 1; `log.Debugf` shows only once the level is `DebugLevel`. -/
def main (env : Env) (listenError : Option String) : Run :=
  let start := [Event.logInfo "Starting tesla_wallbox_exporter"]
  match getEnvVariableOrDie env ENV_TESLA_WALLBOX_IP with
  | Except.error msg => { events := start ++ [Event.logFatal msg], outcome := Outcome.exit 1 }
  | Except.ok ipAddress =>
    match getEnvVariableOrDie env ENV_DEBUG with
    | Except.error msg => { events := start ++ [Event.logFatal msg], outcome := Outcome.exit 1 }
    | Except.ok debugValue =>
      let debugLevel : Bool := debugValue = "true"
      let levelEvents := if debugLevel then [Event.setLevelDebug] else []
      let keepPowerMetersWhenUnreachable : Bool :=
        match LookupEnv env ENV_KEEP_POWER_METER with
        | some value => value = "true"
        | none => false
      let keepEvents :=
        if keepPowerMetersWhenUnreachable then
          [Event.logInfo "Keeping last power meter stats when wallbox becomes unreachable"]
        else []
      let lookingEvents :=
        if debugLevel then
          [Event.logDebug ("Looking for a Tesla walbox under " ++ ipAddress)]
        else []
      let events := start ++ levelEvents ++ keepEvents ++ lookingEvents ++
        [Event.handleFunc "/query", Event.listenAndServe ":8420"]
      let server : Server :=
        { ipAddress := ipAddress,
          debugLevel := debugLevel,
          keepPowerMetersWhenUnreachable := keepPowerMetersWhenUnreachable,
          carried := { lastSessionEnergyValue := Float64.zero, lastDispensedEnergyValue := 0 } }
      match listenError with
      | some e => { events := events ++ [Event.logFatal e], outcome := Outcome.exit 1 }
      | none => { events := events, outcome := Outcome.serving server }

/-! ## Sample values -/

/-- The `float64` value `12.5` (sign 0, exponent 1026, fraction `0x9000000000000`). -/
def twelvePointFive : Float64 := ⟨0x4029000000000000, by decide⟩

/-- The `float64` value `-0.0` (only the sign bit set). -/
def negativeZero : Float64 := ⟨0x8000000000000000, by decide⟩

/-- A successful vitals reading with a session energy of `12.5`, the contactor closed
and a vehicle connected. -/
def chargingVitals : Vitals :=
  { Vitals.zero with
    ContactorClosed := true, VehicleConnected := true, SessionEnergy := twelvePointFive }

/-- A successful lifetime-stats reading with `4200` dispensed. -/
def someStats : LifetimeStats :=
  { LifetimeStats.zero with ContactorCycles := 17, DispensedEnergy := 4200 }

/-- The outcome of a fetch that failed: the zero-valued structure and an error. -/
def failed {α : Type} (zero : α) : Fetched α :=
  { value := zero, error := some "connection refused" }

/-- The outcome of a fetch that succeeded. -/
def fetched {α : Type} (value : α) : Fetched α :=
  { value := value, error := none }

/-! ## What the claims speak of -/

/-- The most recent reading in `readings` (oldest first) that is not zero, or `zero`
when every reading is zero. -/
def mostRecentNonzero {α : Type} (isZero : α → Bool) (zero : α) (readings : List α) : α :=
  (readings.reverse.find? (fun x => !isZero x)).getD zero

/-- The carried variables as `main` initialises them. -/
def initialCarried : CarriedState :=
  { lastSessionEnergyValue := Float64.zero, lastDispensedEnergyValue := 0 }

/-! ## Lemmas on `sprintfChars` -/

/-- A character other than `%` is copied. -/
theorem sprintfChars_cons (c : Char) (cs : List Char) (args : List Arg) (hc : c ≠ '%') :
    sprintfChars (c :: cs) args = (sprintfChars cs args).map (c :: ·) := by
  rw [sprintfChars.eq_def]
  simp only [hc, if_false]
  rfl

/-- Text without `%` is copied. -/
theorem sprintfChars_lit (cs rest : List Char) (args : List Arg)
    (h : cs.all (· != '%') = true) :
    sprintfChars (cs ++ rest) args = (sprintfChars rest args).map (cs ++ ·) := by
  induction cs with
  | nil => simp
  | cons c cs ih =>
    simp only [List.all_cons, Bool.and_eq_true, bne_iff_ne, ne_eq] at h
    rw [List.cons_append, sprintfChars_cons _ _ _ h.1, ih h.2]
    cases sprintfChars rest args <;> simp

/-- Text without `%` at the end of the format, all operands used. -/
theorem sprintfChars_lit_end (cs : List Char) (h : cs.all (· != '%') = true) :
    sprintfChars cs [] = some cs := by
  have := sprintfChars_lit cs [] [] h
  simpa [sprintfChars] using this

/-- The verb `%d` prints the next operand, an integer. -/
theorem sprintfChars_d (rest : List Char) (i : Int) (args : List Arg) :
    sprintfChars ("%d".data ++ rest) (Arg.int i :: args) =
      (sprintfChars rest args).map (formatInt i ++ ·) := by
  show sprintfChars ('%' :: 'd' :: rest) _ = _
  rw [sprintfChars.eq_def]
  simp

/-- The verb `%.1f` prints the next operand, a float64, with one decimal. -/
theorem sprintfChars_f1 (rest : List Char) (x : Float64) (args : List Arg) :
    sprintfChars ("%.1f".data ++ rest) (Arg.float x :: args) =
      (sprintfChars rest args).map (formatFloat 1 x ++ ·) := by
  show sprintfChars ('%' :: '.' :: '1' :: 'f' :: rest) _ = _
  rw [sprintfChars.eq_def]
  simp

/-- The verb `%.3f` prints the next operand, a float64, with three decimals. -/
theorem sprintfChars_f3 (rest : List Char) (x : Float64) (args : List Arg) :
    sprintfChars ("%.3f".data ++ rest) (Arg.float x :: args) =
      (sprintfChars rest args).map (formatFloat 3 x ++ ·) := by
  show sprintfChars ('%' :: '.' :: '3' :: 'f' :: rest) _ = _
  rw [sprintfChars.eq_def]
  simp

/-- The lifetime-stats block is the rendered format string: it starts with an empty
line and the two lines of `contactor_cycles`. -/
theorem lifetimeStats_block_start (stats : LifetimeStats) :
    ∃ rest, prometheusFormatWallboxLifetimeStats stats = String.mk
      ("\n".data ++ ("# TYPE contactor_cycles counter\n".data ++ ("contactor_cycles ".data ++
        (formatInt stats.ContactorCycles ++ ("\n".data ++ rest))))) := by
  unfold prometheusFormatWallboxLifetimeStats sprintf lifetimeStatsFormatString
  simp only [String.data_append, List.append_assoc]
  repeat
    first
    | rw [sprintfChars_d]
    | rw [sprintfChars_f1]
    | rw [sprintfChars_f3]
    | (rw [sprintfChars_lit _ _ _ (by decide)])
    | (rw [sprintfChars_lit_end _ (by decide)])
  simp only [Option.map_some']
  exact ⟨_, rfl⟩

set_option maxRecDepth 8000 in
/-- The vitals block is the rendered format string: it starts with an empty line, the
two lines of `contactor_closed`, an empty line and the two lines of
`vehicle_connected`. -/
theorem vitals_block_start (vitals : Vitals) :
    ∃ rest, prometheusFormatWallboxVitals vitals = String.mk
      ("\n".data ++ ("# TYPE contactor_closed gauge\n".data ++ ("contactor_closed ".data ++
        (formatInt (boolToInt vitals.ContactorClosed) ++ ("\n".data ++ ("\n".data ++
        ("# TYPE vehicle_connected gauge\n".data ++ ("vehicle_connected ".data ++
        (formatInt (boolToInt vitals.VehicleConnected) ++ ("\n".data ++ rest)))))))))) := by
  unfold prometheusFormatWallboxVitals sprintf vitalsFormatString
  simp only [String.data_append, List.append_assoc]
  repeat
    first
    | rw [sprintfChars_d]
    | rw [sprintfChars_f1]
    | rw [sprintfChars_f3]
    | (rw [sprintfChars_lit _ _ _ (by decide)])
    | (rw [sprintfChars_lit_end _ (by decide)])
  simp only [Option.map_some']
  exact ⟨_, rfl⟩

/-! ## The stale-value guard inside the handler -/

/-- C1: with the guard enabled, a session-energy reading that is exactly zero is
replaced by the carried `lastSessionEnergyValue` before formatting, and the carried value
stays what it was; the same holds for a zero dispensed-energy reading and
`lastDispensedEnergyValue`. Each field is decided on its own reading only. -/
theorem guard_zero_reading_uses_carried (carried : CarriedState)
    (vitalsFetch : Fetched Vitals) (statsFetch : Fetched LifetimeStats) :
    (vitalsFetch.value.SessionEnergy.eqZero = true →
      (queryHandler true carried vitalsFetch statsFetch).vitals =
          { vitalsFetch.value with SessionEnergy := carried.lastSessionEnergyValue } ∧
        (queryHandler true carried vitalsFetch statsFetch).writes[0]? =
          some (fprintln (prometheusFormatWallboxVitals
            { vitalsFetch.value with SessionEnergy := carried.lastSessionEnergyValue })) ∧
        (queryHandler true carried vitalsFetch statsFetch).carried.lastSessionEnergyValue =
          carried.lastSessionEnergyValue) ∧
    (statsFetch.value.DispensedEnergy = 0 →
      (queryHandler true carried vitalsFetch statsFetch).stats =
          { statsFetch.value with DispensedEnergy := carried.lastDispensedEnergyValue } ∧
        (queryHandler true carried vitalsFetch statsFetch).writes[1]? =
          some (fprintln (prometheusFormatWallboxLifetimeStats
            { statsFetch.value with DispensedEnergy := carried.lastDispensedEnergyValue })) ∧
        (queryHandler true carried vitalsFetch statsFetch).carried.lastDispensedEnergyValue =
          carried.lastDispensedEnergyValue) := by
  constructor
  · intro h
    simp [queryHandler, h]
  · intro h
    simp [queryHandler, h]

/-- C1 at a concrete input: carried values `(12.5, 4200)`, a failed vitals fetch whose
session energy is `-0.0`, and a failed lifetime-stats fetch. -/
theorem guard_zero_reading_uses_carried_witness :
    ((queryHandler true ⟨twelvePointFive, 4200⟩
        (failed { Vitals.zero with SessionEnergy := negativeZero })
        (failed LifetimeStats.zero)).vitals =
          { Vitals.zero with SessionEnergy := twelvePointFive } ∧
      (queryHandler true ⟨twelvePointFive, 4200⟩
        (failed { Vitals.zero with SessionEnergy := negativeZero })
        (failed LifetimeStats.zero)).writes[0]? =
          some (fprintln (prometheusFormatWallboxVitals
            { Vitals.zero with SessionEnergy := twelvePointFive })) ∧
      (queryHandler true ⟨twelvePointFive, 4200⟩
        (failed { Vitals.zero with SessionEnergy := negativeZero })
        (failed LifetimeStats.zero)).carried.lastSessionEnergyValue = twelvePointFive) ∧
    ((queryHandler true ⟨twelvePointFive, 4200⟩
        (failed { Vitals.zero with SessionEnergy := negativeZero })
        (failed LifetimeStats.zero)).stats =
          { LifetimeStats.zero with DispensedEnergy := 4200 } ∧
      (queryHandler true ⟨twelvePointFive, 4200⟩
        (failed { Vitals.zero with SessionEnergy := negativeZero })
        (failed LifetimeStats.zero)).writes[1]? =
          some (fprintln (prometheusFormatWallboxLifetimeStats
            { LifetimeStats.zero with DispensedEnergy := 4200 })) ∧
      (queryHandler true ⟨twelvePointFive, 4200⟩
        (failed { Vitals.zero with SessionEnergy := negativeZero })
        (failed LifetimeStats.zero)).carried.lastDispensedEnergyValue = 4200) :=
  ⟨(guard_zero_reading_uses_carried ⟨twelvePointFive, 4200⟩
      (failed { Vitals.zero with SessionEnergy := negativeZero })
      (failed LifetimeStats.zero)).1 (by decide),
   (guard_zero_reading_uses_carried ⟨twelvePointFive, 4200⟩
      (failed { Vitals.zero with SessionEnergy := negativeZero })
      (failed LifetimeStats.zero)).2 (by decide)⟩

/-- C2: with the guard enabled, a nonzero session-energy reading is formatted as it came
and becomes the carried `lastSessionEnergyValue`; a nonzero dispensed-energy reading is
formatted as it came and becomes `lastDispensedEnergyValue`; and in every guard-enabled
request the carried pair afterwards is the pair of values that were formatted. -/
theorem guard_nonzero_reading_passes_and_is_carried (carried : CarriedState)
    (vitalsFetch : Fetched Vitals) (statsFetch : Fetched LifetimeStats) :
    (vitalsFetch.value.SessionEnergy.eqZero = false →
      (queryHandler true carried vitalsFetch statsFetch).vitals = vitalsFetch.value ∧
        (queryHandler true carried vitalsFetch statsFetch).writes[0]? =
          some (fprintln (prometheusFormatWallboxVitals vitalsFetch.value)) ∧
        (queryHandler true carried vitalsFetch statsFetch).carried.lastSessionEnergyValue =
          vitalsFetch.value.SessionEnergy) ∧
    (statsFetch.value.DispensedEnergy ≠ 0 →
      (queryHandler true carried vitalsFetch statsFetch).stats = statsFetch.value ∧
        (queryHandler true carried vitalsFetch statsFetch).writes[1]? =
          some (fprintln (prometheusFormatWallboxLifetimeStats statsFetch.value)) ∧
        (queryHandler true carried vitalsFetch statsFetch).carried.lastDispensedEnergyValue =
          statsFetch.value.DispensedEnergy) ∧
    (queryHandler true carried vitalsFetch statsFetch).carried =
      { lastSessionEnergyValue :=
          (queryHandler true carried vitalsFetch statsFetch).vitals.SessionEnergy,
        lastDispensedEnergyValue :=
          (queryHandler true carried vitalsFetch statsFetch).stats.DispensedEnergy } := by
  refine ⟨?_, ?_, ?_⟩
  · intro h
    simp [queryHandler, h]
  · intro h
    simp [queryHandler, h]
  · simp [queryHandler]

/-- C2 at a concrete input: carried values `(0, 7)`, a successful vitals reading with
session energy `12.5` and a successful lifetime-stats reading with `4200` dispensed. -/
theorem guard_nonzero_reading_passes_and_is_carried_witness :
    ((queryHandler true ⟨Float64.zero, 7⟩ (fetched chargingVitals)
        (fetched someStats)).vitals = chargingVitals ∧
      (queryHandler true ⟨Float64.zero, 7⟩ (fetched chargingVitals)
        (fetched someStats)).writes[0]? =
          some (fprintln (prometheusFormatWallboxVitals chargingVitals)) ∧
      (queryHandler true ⟨Float64.zero, 7⟩ (fetched chargingVitals)
        (fetched someStats)).carried.lastSessionEnergyValue = twelvePointFive) ∧
    ((queryHandler true ⟨Float64.zero, 7⟩ (fetched chargingVitals)
        (fetched someStats)).stats = someStats ∧
      (queryHandler true ⟨Float64.zero, 7⟩ (fetched chargingVitals)
        (fetched someStats)).writes[1]? =
          some (fprintln (prometheusFormatWallboxLifetimeStats someStats)) ∧
      (queryHandler true ⟨Float64.zero, 7⟩ (fetched chargingVitals)
        (fetched someStats)).carried.lastDispensedEnergyValue = 4200) :=
  ⟨(guard_nonzero_reading_passes_and_is_carried ⟨Float64.zero, 7⟩ (fetched chargingVitals)
      (fetched someStats)).1 (by decide),
   (guard_nonzero_reading_passes_and_is_carried ⟨Float64.zero, 7⟩ (fetched chargingVitals)
      (fetched someStats)).2.1 (by decide)⟩

/-- C4: with the guard disabled the structures handed to the formatters are the fetched
ones, field for field (a zero stays zero), the two writes are their formatted text, and
the carried pair after the request is the pair before it. -/
theorem guard_disabled_passes_through (carried : CarriedState)
    (vitalsFetch : Fetched Vitals) (statsFetch : Fetched LifetimeStats) :
    (queryHandler false carried vitalsFetch statsFetch).vitals = vitalsFetch.value ∧
    (queryHandler false carried vitalsFetch statsFetch).stats = statsFetch.value ∧
    (queryHandler false carried vitalsFetch statsFetch).writes =
      [fprintln (prometheusFormatWallboxVitals vitalsFetch.value),
       fprintln (prometheusFormatWallboxLifetimeStats statsFetch.value)] ∧
    (queryHandler false carried vitalsFetch statsFetch).carried = carried := by
  simp [queryHandler]

/-! ## The response -/

/-- C7: whatever the two fetches return, with or without an error, the handler writes
status 200 and then the vitals block followed by the lifetime-stats block, each ended by
the newline of `Fprintln`; the errors reach the log only, so the status and the body are
the ones of the same readings fetched without error, a failed fetch with its zero-valued
structure is formatted like any other reading, and each block starts with the TYPE line
and value line of its first metric. -/
theorem query_always_200_with_both_blocks (keep : Bool) (carried : CarriedState)
    (vitals : Vitals) (stats : LifetimeStats) (vitalsError statsError : Option String) :
    (queryHandler keep carried ⟨vitals, vitalsError⟩ ⟨stats, statsError⟩).status = 200 ∧
    (queryHandler keep carried ⟨vitals, vitalsError⟩ ⟨stats, statsError⟩).writes =
      [fprintln (prometheusFormatWallboxVitals
          (queryHandler keep carried ⟨vitals, vitalsError⟩ ⟨stats, statsError⟩).vitals),
       fprintln (prometheusFormatWallboxLifetimeStats
          (queryHandler keep carried ⟨vitals, vitalsError⟩ ⟨stats, statsError⟩).stats)] ∧
    (queryHandler keep carried ⟨vitals, vitalsError⟩ ⟨stats, statsError⟩).body =
      prometheusFormatWallboxVitals
          (queryHandler keep carried ⟨vitals, vitalsError⟩ ⟨stats, statsError⟩).vitals ++ "\n" ++
        prometheusFormatWallboxLifetimeStats
          (queryHandler keep carried ⟨vitals, vitalsError⟩ ⟨stats, statsError⟩).stats ++ "\n" ∧
    (queryHandler keep carried ⟨vitals, vitalsError⟩ ⟨stats, statsError⟩).status =
      (queryHandler keep carried ⟨vitals, none⟩ ⟨stats, none⟩).status ∧
    (queryHandler keep carried ⟨vitals, vitalsError⟩ ⟨stats, statsError⟩).body =
      (queryHandler keep carried ⟨vitals, none⟩ ⟨stats, none⟩).body ∧
    (queryHandler false carried (failed Vitals.zero) (failed LifetimeStats.zero)).body =
      prometheusFormatWallboxVitals Vitals.zero ++ "\n" ++
        prometheusFormatWallboxLifetimeStats LifetimeStats.zero ++ "\n" ∧
    (∃ rest₁ rest₂ : String,
      prometheusFormatWallboxVitals
          (queryHandler keep carried ⟨vitals, vitalsError⟩ ⟨stats, statsError⟩).vitals =
        "\n" ++ "# TYPE contactor_closed gauge\n" ++ "contactor_closed " ++ rest₁ ∧
      prometheusFormatWallboxLifetimeStats
          (queryHandler keep carried ⟨vitals, vitalsError⟩ ⟨stats, statsError⟩).stats =
        "\n" ++ "# TYPE contactor_cycles counter\n" ++ "contactor_cycles " ++ rest₂) := by
  refine ⟨rfl, rfl, ?_, rfl, rfl, ?_, ?_⟩
  · simp [QueryResult.body, queryHandler, fprintln, String.append_assoc]
  · simp [QueryResult.body, queryHandler, fprintln, failed, String.append_assoc]
  · obtain ⟨r₁, h₁⟩ := vitals_block_start
      (queryHandler keep carried ⟨vitals, vitalsError⟩ ⟨stats, statsError⟩).vitals
    obtain ⟨r₂, h₂⟩ := lifetimeStats_block_start
      (queryHandler keep carried ⟨vitals, vitalsError⟩ ⟨stats, statsError⟩).stats
    have key : ∀ (s : String) (a b c t : List Char), s = String.mk (a ++ (b ++ (c ++ t))) →
        ∃ rest : String, s = String.mk a ++ String.mk b ++ String.mk c ++ rest := by
      intro s a b c t h
      refine ⟨String.mk t, ?_⟩
      rw [h]
      apply String.ext
      simp only [String.data_append, List.append_assoc]
    obtain ⟨x, hx⟩ := key _ _ _ _ _ h₁
    obtain ⟨y, hy⟩ := key _ _ _ _ _ h₂
    exact ⟨x, y, hx, hy⟩

/-- C8: the lifetime-stats write, the structure behind it and the carried
`lastDispensedEnergyValue` are the same for any two vitals outcomes, and the vitals
write, the structure behind it and the carried `lastSessionEnergyValue` are the same for
any two lifetime-stats outcomes. -/
theorem readings_handled_independently (keep : Bool) (carried : CarriedState) :
    (∀ (statsFetch : Fetched LifetimeStats) (vitalsFetch₁ vitalsFetch₂ : Fetched Vitals),
      (queryHandler keep carried vitalsFetch₁ statsFetch).writes[1]? =
          (queryHandler keep carried vitalsFetch₂ statsFetch).writes[1]? ∧
        (queryHandler keep carried vitalsFetch₁ statsFetch).stats =
          (queryHandler keep carried vitalsFetch₂ statsFetch).stats ∧
        (queryHandler keep carried vitalsFetch₁ statsFetch).carried.lastDispensedEnergyValue =
          (queryHandler keep carried vitalsFetch₂ statsFetch).carried.lastDispensedEnergyValue) ∧
    (∀ (vitalsFetch : Fetched Vitals) (statsFetch₁ statsFetch₂ : Fetched LifetimeStats),
      (queryHandler keep carried vitalsFetch statsFetch₁).writes[0]? =
          (queryHandler keep carried vitalsFetch statsFetch₂).writes[0]? ∧
        (queryHandler keep carried vitalsFetch statsFetch₁).vitals =
          (queryHandler keep carried vitalsFetch statsFetch₂).vitals ∧
        (queryHandler keep carried vitalsFetch statsFetch₁).carried.lastSessionEnergyValue =
          (queryHandler keep carried vitalsFetch statsFetch₂).carried.lastSessionEnergyValue) := by
  constructor
  · intro statsFetch v₁ v₂
    cases keep <;> simp [queryHandler]
  · intro vitalsFetch s₁ s₂
    cases keep <;> simp [queryHandler]

/-! ## Booleans in the vitals block -/

/-- C10: `boolToInt` maps `true` to 1 and `false` to 0, so its result is 0 or 1, and the
vitals block starts with an empty line, the line `# TYPE contactor_closed gauge`, the
line `contactor_closed 1` or `contactor_closed 0` according to `ContactorClosed`, an
empty line, the line `# TYPE vehicle_connected gauge` and the line `vehicle_connected 1`
or `vehicle_connected 0` according to `VehicleConnected`. -/
theorem booleans_rendered_as_0_or_1 :
    boolToInt true = 1 ∧ boolToInt false = 0 ∧ (∀ v, boolToInt v = 0 ∨ boolToInt v = 1) ∧
    ∀ vitals : Vitals, ∃ rest : String,
      prometheusFormatWallboxVitals vitals =
        "\n" ++ "# TYPE contactor_closed gauge\n" ++
          ("contactor_closed " ++ (if vitals.ContactorClosed = true then "1" else "0") ++ "\n") ++
          "\n" ++ "# TYPE vehicle_connected gauge\n" ++
          ("vehicle_connected " ++ (if vitals.VehicleConnected = true then "1" else "0") ++ "\n") ++
          rest := by
  refine ⟨rfl, rfl, fun v => by cases v <;> simp [boolToInt], ?_⟩
  intro vitals
  obtain ⟨rest, h⟩ := vitals_block_start vitals
  refine ⟨String.mk rest, ?_⟩
  rw [h]
  apply String.ext
  have hi : ∀ b : Bool, formatInt (boolToInt b) = (if b = true then "1" else "0").data := by
    intro b
    cases b <;> rfl
  simp only [String.data_append, hi, List.append_assoc]

/-! ## Requests handled one after another -/

/-- Putting a reading in front of the list is the same as starting from that reading
when it is nonzero. -/
theorem mostRecentNonzero_cons {α : Type} (isZero : α → Bool) (zero x : α) (l : List α) :
    mostRecentNonzero isZero zero (x :: l) =
      mostRecentNonzero isZero (if isZero x = true then zero else x) l := by
  unfold mostRecentNonzero
  simp only [List.reverse_cons, List.find?_append]
  cases (l.reverse.find? fun x => !isZero x) <;> cases hx : isZero x <;>
    simp [List.find?, hx]

/-- A list holding a nonzero reading has a nonzero most recent nonzero reading. -/
theorem mostRecentNonzero_nonzero {α : Type} (isZero : α → Bool) (zero x : α) (l : List α)
    (hx : x ∈ l) (hnz : isZero x = false) :
    isZero (mostRecentNonzero isZero zero l) = false := by
  unfold mostRecentNonzero
  cases h : (l.reverse.find? fun x => !isZero x) with
  | none =>
    rw [List.find?_eq_none] at h
    have := h x (List.mem_reverse.mpr hx)
    simp [hnz] at this
  | some y =>
    have := List.find?_some h
    simpa using this

/-- The `k`-th result of `serveAll` with the guard enabled, from any carried start. -/
theorem serveAll_getElem? (reqs : List (Fetched Vitals × Fetched LifetimeStats))
    (carried : CarriedState) (k : Nat) (req : Fetched Vitals × Fetched LifetimeStats)
    (h : reqs[k]? = some req) :
    ∃ r, (serveAll true carried reqs)[k]? = some r ∧
      r.status = 200 ∧
      r.vitals = { req.1.value with
        SessionEnergy := mostRecentNonzero Float64.eqZero carried.lastSessionEnergyValue
          ((reqs.take (k + 1)).map fun q => q.1.value.SessionEnergy) } ∧
      r.stats = { req.2.value with
        DispensedEnergy := mostRecentNonzero (fun n => n == 0) carried.lastDispensedEnergyValue
          ((reqs.take (k + 1)).map fun q => q.2.value.DispensedEnergy) } ∧
      r.writes = [fprintln (prometheusFormatWallboxVitals r.vitals),
                  fprintln (prometheusFormatWallboxLifetimeStats r.stats)] := by
  induction reqs generalizing carried k with
  | nil => simp at h
  | cons req₀ rest ih =>
    obtain ⟨vitalsFetch, statsFetch⟩ := req₀
    cases k with
    | zero =>
      simp only [List.getElem?_cons_zero, Option.some.injEq] at h
      subst h
      refine ⟨queryHandler true carried vitalsFetch statsFetch, by simp [serveAll], rfl,
        ?_, ?_, rfl⟩
      · by_cases hz : vitalsFetch.value.SessionEnergy.eqZero = true <;>
          simp [queryHandler, mostRecentNonzero, List.find?, hz]
      · by_cases hz : statsFetch.value.DispensedEnergy = 0
        · simp [queryHandler, mostRecentNonzero, List.find?, hz]
        · have hb : (statsFetch.value.DispensedEnergy == 0) = false := by simpa using hz
          simp [queryHandler, mostRecentNonzero, List.find?, hz, hb]
    | succ k =>
      simp only [List.getElem?_cons_succ] at h
      obtain ⟨r, hr, hs, hv, hst, hw⟩ :=
        ih (queryHandler true carried vitalsFetch statsFetch).carried k h
      refine ⟨r, by simpa [serveAll] using hr, hs, ?_, ?_, hw⟩
      · rw [hv, List.take_succ_cons, List.map_cons, mostRecentNonzero_cons]
        by_cases hz : vitalsFetch.value.SessionEnergy.eqZero = true <;>
          simp [queryHandler, hz]
      · rw [hst, List.take_succ_cons, List.map_cons, mostRecentNonzero_cons]
        by_cases hz : statsFetch.value.DispensedEnergy = 0 <;> simp [queryHandler, hz]

/-- C3: with the guard enabled and the carried pair starting at `(0, 0)`, the response
to the `k`-th of a sequence of requests is formatted from the `k`-th readings with the
session energy replaced by the most recent nonzero session energy among the requests up
to the `k`-th (0 if there is none), and likewise for the dispensed energy; once a request
has had a nonzero reading, no later formatted value is zero; and a reading of `12.5`
followed by a failed, zero-valued fetch gives `12.5`, printed `12.500`, in both
responses. -/
theorem formatted_energy_is_most_recent_nonzero :
    (∀ (reqs : List (Fetched Vitals × Fetched LifetimeStats)) (k : Nat)
        (req : Fetched Vitals × Fetched LifetimeStats), reqs[k]? = some req →
      ∃ r, (serveAll true initialCarried reqs)[k]? = some r ∧
        r.vitals = { req.1.value with
          SessionEnergy := mostRecentNonzero Float64.eqZero Float64.zero
            ((reqs.take (k + 1)).map fun q => q.1.value.SessionEnergy) } ∧
        r.stats = { req.2.value with
          DispensedEnergy := mostRecentNonzero (fun n => n == 0) 0
            ((reqs.take (k + 1)).map fun q => q.2.value.DispensedEnergy) } ∧
        r.writes = [fprintln (prometheusFormatWallboxVitals r.vitals),
                    fprintln (prometheusFormatWallboxLifetimeStats r.stats)] ∧
        (∀ i q, i ≤ k → reqs[i]? = some q → q.1.value.SessionEnergy.eqZero = false →
          r.vitals.SessionEnergy.eqZero = false) ∧
        (∀ i q, i ≤ k → reqs[i]? = some q → q.2.value.DispensedEnergy ≠ 0 →
          r.stats.DispensedEnergy ≠ 0)) ∧
    (serveAll true initialCarried
        [(fetched chargingVitals, fetched someStats),
         (failed Vitals.zero, failed LifetimeStats.zero)]).map
        (fun r => r.vitals.SessionEnergy) = [twelvePointFive, twelvePointFive] ∧
    formatFloat 3 twelvePointFive = "12.500".data := by
  refine ⟨?_, by decide, by decide⟩
  intro reqs k req h
  obtain ⟨r, hr, _, hv, hst, hw⟩ := serveAll_getElem? reqs initialCarried k req h
  refine ⟨r, hr, hv, hst, hw, ?_, ?_⟩
  · intro i q hik hq hnz
    rw [hv]
    refine mostRecentNonzero_nonzero Float64.eqZero _ q.1.value.SessionEnergy _ ?_ hnz
    refine List.mem_map.mpr ⟨q, List.getElem?_mem (n := i) ?_, rfl⟩
    rw [List.getElem?_take_of_lt (by omega)]
    exact hq
  · intro i q hik hq hnz
    rw [hst]
    have := mostRecentNonzero_nonzero (fun n => n == 0) initialCarried.lastDispensedEnergyValue
      q.2.value.DispensedEnergy ((reqs.take (k + 1)).map fun q => q.2.value.DispensedEnergy)
      (List.mem_map.mpr ⟨q, List.getElem?_mem (n := i)
        (by rw [List.getElem?_take_of_lt (by omega)]; exact hq), rfl⟩)
      (by simpa using hnz)
    simpa using this

/-- C3 at a concrete input: the second of two requests, the first with a session energy
of `12.5` and `4200` dispensed, the second a failed fetch of both readings. -/
theorem formatted_energy_is_most_recent_nonzero_witness :
    ∃ r, (serveAll true initialCarried
        [(fetched chargingVitals, fetched someStats),
         (failed Vitals.zero, failed LifetimeStats.zero)])[1]? = some r ∧
      r.vitals = { Vitals.zero with
        SessionEnergy := mostRecentNonzero Float64.eqZero Float64.zero
          [twelvePointFive, Float64.zero] } ∧
      r.stats = { LifetimeStats.zero with
        DispensedEnergy := mostRecentNonzero (fun n => n == 0) 0 [4200, 0] } ∧
      r.writes = [fprintln (prometheusFormatWallboxVitals r.vitals),
                  fprintln (prometheusFormatWallboxLifetimeStats r.stats)] ∧
      (∀ i q, i ≤ 1 →
        [(fetched chargingVitals, fetched someStats),
         (failed Vitals.zero, failed LifetimeStats.zero)][i]? = some q →
        q.1.value.SessionEnergy.eqZero = false → r.vitals.SessionEnergy.eqZero = false) ∧
      (∀ i q, i ≤ 1 →
        [(fetched chargingVitals, fetched someStats),
         (failed Vitals.zero, failed LifetimeStats.zero)][i]? = some q →
        q.2.value.DispensedEnergy ≠ 0 → r.stats.DispensedEnergy ≠ 0) :=
  formatted_energy_is_most_recent_nonzero.1
    [(fetched chargingVitals, fetched someStats),
     (failed Vitals.zero, failed LifetimeStats.zero)] 1
    (failed Vitals.zero, failed LifetimeStats.zero) rfl

/-! ## Startup -/

/-- Unfolding of `main` once the two mandatory variables are known to be set. -/
theorem main_of_lookups (env : Env) (listenError : Option String)
    (ipAddress debugValue : String)
    (hip : LookupEnv env ENV_TESLA_WALLBOX_IP = some ipAddress)
    (hdebug : LookupEnv env ENV_DEBUG = some debugValue) :
    main env listenError =
      match listenError with
      | some e =>
        { events := [Event.logInfo "Starting tesla_wallbox_exporter"] ++
            (if debugValue = "true" then [Event.setLevelDebug] else []) ++
            (if LookupEnv env ENV_KEEP_POWER_METER = some "true" then
              [Event.logInfo "Keeping last power meter stats when wallbox becomes unreachable"]
             else []) ++
            (if debugValue = "true" then
              [Event.logDebug ("Looking for a Tesla walbox under " ++ ipAddress)]
             else []) ++
            [Event.handleFunc "/query", Event.listenAndServe ":8420"] ++ [Event.logFatal e],
          outcome := Outcome.exit 1 }
      | none =>
        { events := [Event.logInfo "Starting tesla_wallbox_exporter"] ++
            (if debugValue = "true" then [Event.setLevelDebug] else []) ++
            (if LookupEnv env ENV_KEEP_POWER_METER = some "true" then
              [Event.logInfo "Keeping last power meter stats when wallbox becomes unreachable"]
             else []) ++
            (if debugValue = "true" then
              [Event.logDebug ("Looking for a Tesla walbox under " ++ ipAddress)]
             else []) ++
            [Event.handleFunc "/query", Event.listenAndServe ":8420"],
          outcome := Outcome.serving
            { ipAddress := ipAddress,
              debugLevel := decide (debugValue = "true"),
              keepPowerMetersWhenUnreachable :=
                decide (LookupEnv env ENV_KEEP_POWER_METER = some "true"),
              carried := initialCarried } } := by
  unfold main getEnvVariableOrDie
  simp only [hip, hdebug]
  cases hk : LookupEnv env ENV_KEEP_POWER_METER <;> cases listenError <;>
    simp [initialCarried]

/-- Unfolding of `main` when the device address is not set. -/
theorem main_of_missing_address (env : Env) (listenError : Option String)
    (h : LookupEnv env ENV_TESLA_WALLBOX_IP = none) :
    main env listenError =
      { events := [Event.logInfo "Starting tesla_wallbox_exporter",
                   Event.logFatal "Env variable TESLA_WALLBOX_IP not found"],
        outcome := Outcome.exit 1 } := by
  have hg : getEnvVariableOrDie env ENV_TESLA_WALLBOX_IP =
      Except.error "Env variable TESLA_WALLBOX_IP not found" := by
    simp only [getEnvVariableOrDie, h]
    rfl
  simp only [main, hg]
  rfl

/-- The claim C5 as written fails: with `TESLA_WALLBOX_IP` set and `DEBUG` missing,
`main` logs that `DEBUG` was not found and exits with code 1, before the handler is
registered. -/
theorem startup_without_DEBUG_is_fatal :
    LookupEnv [("TESLA_WALLBOX_IP", "192.168.1.20"), ("KEEP_POWER_METER", "true")]
        ENV_TESLA_WALLBOX_IP = some "192.168.1.20" ∧
    main [("TESLA_WALLBOX_IP", "192.168.1.20"), ("KEEP_POWER_METER", "true")] none =
      { events := [Event.logInfo "Starting tesla_wallbox_exporter",
                   Event.logFatal "Env variable DEBUG not found"],
        outcome := Outcome.exit 1 } := by
  decide

/-- C5, amended: when `TESLA_WALLBOX_IP` and `DEBUG` are both set, `main` logs no fatal
error before the listener, registers `/query` and calls `ListenAndServe` on `:8420`,
whether or not `KEEP_POWER_METER` is set; a `DEBUG` value other than `true` leaves the
log level alone and a missing `KEEP_POWER_METER` leaves the guard disabled. -/
theorem startup_with_address_and_DEBUG_serves (env : Env) (ipAddress debugValue : String)
    (hip : LookupEnv env ENV_TESLA_WALLBOX_IP = some ipAddress)
    (hdebug : LookupEnv env ENV_DEBUG = some debugValue) :
    (∃ before, (main env none).events =
      before ++ [Event.handleFunc "/query", Event.listenAndServe ":8420"]) ∧
    (∀ msg, Event.logFatal msg ∉ (main env none).events) ∧
    (main env none).outcome = Outcome.serving
      { ipAddress := ipAddress,
        debugLevel := decide (debugValue = "true"),
        keepPowerMetersWhenUnreachable :=
          decide (LookupEnv env ENV_KEEP_POWER_METER = some "true"),
        carried := initialCarried } ∧
    (debugValue ≠ "true" → Event.setLevelDebug ∉ (main env none).events) ∧
    (LookupEnv env ENV_KEEP_POWER_METER = none →
      ∃ server, (main env none).outcome = Outcome.serving server ∧
        server.keepPowerMetersWhenUnreachable = false) := by
  rw [main_of_lookups env none ipAddress debugValue hip hdebug]
  refine ⟨⟨_, rfl⟩, ?_, rfl, ?_, ?_⟩
  · intro msg
    by_cases h₁ : debugValue = "true" <;>
      by_cases h₂ : LookupEnv env ENV_KEEP_POWER_METER = some "true" <;> simp [h₁, h₂]
  · intro h₁
    by_cases h₂ : LookupEnv env ENV_KEEP_POWER_METER = some "true" <;> simp [h₁, h₂]
  · intro h
    exact ⟨_, rfl, by simp [h]⟩

/-- C5, amended, at a concrete input: the address and `DEBUG=false` set,
`KEEP_POWER_METER` missing. -/
theorem startup_with_address_and_DEBUG_serves_witness :
    (∃ before, (main [("TESLA_WALLBOX_IP", "192.168.1.20"), ("DEBUG", "false")] none).events =
      before ++ [Event.handleFunc "/query", Event.listenAndServe ":8420"]) ∧
    (∀ msg, Event.logFatal msg ∉
      (main [("TESLA_WALLBOX_IP", "192.168.1.20"), ("DEBUG", "false")] none).events) ∧
    (main [("TESLA_WALLBOX_IP", "192.168.1.20"), ("DEBUG", "false")] none).outcome =
      Outcome.serving
        { ipAddress := "192.168.1.20",
          debugLevel := decide ("false" = "true"),
          keepPowerMetersWhenUnreachable :=
            decide (LookupEnv [("TESLA_WALLBOX_IP", "192.168.1.20"), ("DEBUG", "false")]
              ENV_KEEP_POWER_METER = some "true"),
          carried := initialCarried } ∧
    ("false" ≠ "true" → Event.setLevelDebug ∉
      (main [("TESLA_WALLBOX_IP", "192.168.1.20"), ("DEBUG", "false")] none).events) ∧
    (LookupEnv [("TESLA_WALLBOX_IP", "192.168.1.20"), ("DEBUG", "false")]
        ENV_KEEP_POWER_METER = none →
      ∃ server,
        (main [("TESLA_WALLBOX_IP", "192.168.1.20"), ("DEBUG", "false")] none).outcome =
          Outcome.serving server ∧
        server.keepPowerMetersWhenUnreachable = false) :=
  startup_with_address_and_DEBUG_serves
    [("TESLA_WALLBOX_IP", "192.168.1.20"), ("DEBUG", "false")] "192.168.1.20" "false"
    (by decide) (by decide)

/-- C6: when `TESLA_WALLBOX_IP` is not set, `getEnvVariableOrDie` reports it and `main`
exits with code 1 right after its first log line, whatever the listener would have
returned: no handler is registered, `ListenAndServe` is not called and nothing is
served. When a variable is set, `getEnvVariableOrDie` returns its value, the empty
string included. -/
theorem startup_without_address_is_fatal :
    (∀ (env : Env) (listenError : Option String),
      LookupEnv env ENV_TESLA_WALLBOX_IP = none →
      getEnvVariableOrDie env ENV_TESLA_WALLBOX_IP =
          Except.error "Env variable TESLA_WALLBOX_IP not found" ∧
        main env listenError =
          { events := [Event.logInfo "Starting tesla_wallbox_exporter",
                       Event.logFatal "Env variable TESLA_WALLBOX_IP not found"],
            outcome := Outcome.exit 1 } ∧
        (∀ pattern, Event.handleFunc pattern ∉ (main env listenError).events) ∧
        (∀ addr, Event.listenAndServe addr ∉ (main env listenError).events) ∧
        (∀ server, (main env listenError).outcome ≠ Outcome.serving server)) ∧
    (∀ (env : Env) (lookup value : String),
      LookupEnv env lookup = some value →
      getEnvVariableOrDie env lookup = Except.ok value) ∧
    getEnvVariableOrDie [("TESLA_WALLBOX_IP", "")] ENV_TESLA_WALLBOX_IP = Except.ok "" := by
  refine ⟨?_, ?_, rfl⟩
  · intro env listenError h
    have hg : getEnvVariableOrDie env ENV_TESLA_WALLBOX_IP =
        Except.error "Env variable TESLA_WALLBOX_IP not found" := by
      simp only [getEnvVariableOrDie, h]
      rfl
    have hm := main_of_missing_address env listenError h
    refine ⟨hg, hm, ?_, ?_, ?_⟩ <;> simp [hm]
  · intro env lookup value h
    simp [getEnvVariableOrDie, h]

/-- C6 at concrete inputs: an environment with `DEBUG` and `KEEP_POWER_METER` but no
address, and an environment whose address is the empty string. -/
theorem startup_without_address_is_fatal_witness :
    (getEnvVariableOrDie [("DEBUG", "true"), ("KEEP_POWER_METER", "true")]
          ENV_TESLA_WALLBOX_IP =
        Except.error "Env variable TESLA_WALLBOX_IP not found" ∧
      main [("DEBUG", "true"), ("KEEP_POWER_METER", "true")] none =
        { events := [Event.logInfo "Starting tesla_wallbox_exporter",
                     Event.logFatal "Env variable TESLA_WALLBOX_IP not found"],
          outcome := Outcome.exit 1 } ∧
      (∀ pattern, Event.handleFunc pattern ∉
        (main [("DEBUG", "true"), ("KEEP_POWER_METER", "true")] none).events) ∧
      (∀ addr, Event.listenAndServe addr ∉
        (main [("DEBUG", "true"), ("KEEP_POWER_METER", "true")] none).events) ∧
      (∀ server, (main [("DEBUG", "true"), ("KEEP_POWER_METER", "true")] none).outcome ≠
        Outcome.serving server)) ∧
    getEnvVariableOrDie [("TESLA_WALLBOX_IP", "")] "TESLA_WALLBOX_IP" = Except.ok "" :=
  ⟨startup_without_address_is_fatal.1 [("DEBUG", "true"), ("KEEP_POWER_METER", "true")] none
      (by decide),
   startup_without_address_is_fatal.2.1 [("TESLA_WALLBOX_IP", "")] "TESLA_WALLBOX_IP" ""
      (by decide)⟩

/-- C9: whenever `main` gets as far as serving, the guard flag captured by the handler is
true exactly when `KEEP_POWER_METER` is set to the string `true`; with the variable
missing, or set to `TRUE`, `1`, `true` followed by a blank, or the empty string, the
flag is false. -/
theorem guard_enabled_iff_KEEP_POWER_METER_true :
    (∀ (env : Env) (listenError : Option String) (server : Server),
      (main env listenError).outcome = Outcome.serving server →
      (server.keepPowerMetersWhenUnreachable = true ↔
        LookupEnv env ENV_KEEP_POWER_METER = some "true")) ∧
    (main [("TESLA_WALLBOX_IP", "192.168.1.20"), ("DEBUG", "false"),
        ("KEEP_POWER_METER", "true")] none).outcome =
      Outcome.serving ⟨"192.168.1.20", false, true, initialCarried⟩ ∧
    (main [("TESLA_WALLBOX_IP", "192.168.1.20"), ("DEBUG", "false")] none).outcome =
      Outcome.serving ⟨"192.168.1.20", false, false, initialCarried⟩ ∧
    (∀ value ∈ ["TRUE", "1", "true ", ""],
      (main [("TESLA_WALLBOX_IP", "192.168.1.20"), ("DEBUG", "false"),
          ("KEEP_POWER_METER", value)] none).outcome =
        Outcome.serving ⟨"192.168.1.20", false, false, initialCarried⟩) := by
  refine ⟨?_, by decide, by decide, by decide⟩
  intro env listenError server h
  cases hip : LookupEnv env ENV_TESLA_WALLBOX_IP with
  | none =>
    have := (main_of_missing_address env listenError hip)
    rw [this] at h
    simp at h
  | some ipAddress =>
    cases hdebug : LookupEnv env ENV_DEBUG with
    | none =>
      simp [main, getEnvVariableOrDie, hip, hdebug] at h
    | some debugValue =>
      rw [main_of_lookups env listenError ipAddress debugValue hip hdebug] at h
      cases listenError with
      | some e => simp at h
      | none =>
        simp only [Outcome.serving.injEq] at h
        subst h
        simp

/-- C9 at a concrete input: the address, `DEBUG=false` and `KEEP_POWER_METER=true`. -/
theorem guard_enabled_iff_KEEP_POWER_METER_true_witness :
    (true = true ↔
      LookupEnv [("TESLA_WALLBOX_IP", "192.168.1.20"), ("DEBUG", "false"),
        ("KEEP_POWER_METER", "true")] ENV_KEEP_POWER_METER = some "true") :=
  guard_enabled_iff_KEEP_POWER_METER_true.1
    [("TESLA_WALLBOX_IP", "192.168.1.20"), ("DEBUG", "false"), ("KEEP_POWER_METER", "true")]
    none ⟨"192.168.1.20", false, true, initialCarried⟩ (by decide)

end TeslaWallboxExporter
